import Mathlib

/-!
Verification of the DeepEyeClaw request-orchestration core.

This file gives a shallow embedding, in Lean 4, of the parts of the
DeepEyeClaw gateway that the verified properties talk about:

* the cascade executor (`src/deepeye/smart-router.ts`, `executeCascade`),
* the cost book (`estimateCost` and the model cost registry),
* the budget tracker (`budget-tracker.ts`),
* the budget-admission step of the orchestrator (`agent-manager.ts`,
  `processQuery`),
* the semantic cache lookup (`cache/semantic.ts`),
* the quality estimator (`quality-estimator.ts`).

JavaScript numbers are modelled as rationals (`ℚ`), timestamps as integers
(`ℤ`).  `Math.round` is modelled exactly (round half toward positive
infinity).  Asynchronous provider calls are modelled as `Option`-valued
functions (`none` = the call raised), and thrown errors as `Except`.
Calendar computations (`getPeriodBounds`, built on the JS `Date` class) are
abstracted as an arbitrary bounds function: every theorem below holds for
every choice of period bounds.
-/

namespace DeepEyeClaw

/-- The three upstream providers (`ProviderName` in `types.ts`). -/
inductive ProviderName
  | perplexity
  | openai
  | anthropic
deriving DecidableEq, Repr

/-- Query complexity levels (`QueryComplexity` in `types.ts`). -/
inductive QueryComplexity
  | simple
  | medium
  | complex
deriving DecidableEq, Repr

/-- Query intents (`QueryIntent` in `types.ts`). -/
inductive QueryIntent
  | search
  | reasoning
  | chat
  | creative
  | code
deriving DecidableEq, Repr

/-- JavaScript `Math.round`: round half toward positive infinity. -/
def mathRound (x : ℚ) : ℚ := (((x + 1 / 2).floor : ℤ) : ℚ)

/-- `mathRound` is the floor of `x + 1/2` in the usual order-theoretic
sense. -/
theorem mathRound_eq_floor (x : ℚ) : mathRound x = ((⌊x + 1 / 2⌋ : ℤ) : ℚ) :=
  by rw [mathRound, Rat.floor_def', Rat.floor_def]

-- ─── Cascade executor (smart-router.ts) ──────────────────────────────────────

/-- One step of a cascade chain (`CascadeStep` in `types.ts`). -/
structure CascadeStep where
  provider : String
  model : String
  qualityThreshold : ℚ
  maxCost : ℚ
deriving DecidableEq, Repr

/-- The result record returned by `executeCascade` (`CascadeResult`). -/
structure CascadeResult (T : Type) where
  response : T
  provider : String
  model : String
  step : Nat
  totalSteps : Nat
  totalCost : ℚ
deriving DecidableEq, Repr

/-- Errors `executeCascade` can throw: the explicit
`"[DeepEyeClaw] All cascade steps failed"` error, and the TypeError raised by
`params.chain[0].provider` when the chain is empty. -/
inductive CascadeError
  | allCascadeStepsFailed
  | typeError
deriving DecidableEq, Repr

/-- The mutable best-so-far bookkeeping of `executeCascade`
(`bestResponse`, `bestQuality`, `bestProvider`, `bestModel`, `bestStep`). -/
structure CascadeBest (T : Type) where
  bestResponse : Option T
  bestQuality : ℚ
  bestProvider : String
  bestModel : String
  bestStep : Nat
deriving DecidableEq, Repr

/-- The loop body of `executeCascade`: iterate the remaining steps (the step
at list position `k` has chain index `i + k`), tracking the best-so-far
record.  `run i = none` models the `run` call at step `i` raising; otherwise
`evalQ` scores the response.  Mirrors smart-router.ts lines 314–355. -/
def executeCascadeGo {T : Type} (run : Nat → Option T) (evalQ : T → ℚ)
    (total : Nat) : Nat → List CascadeStep → CascadeBest T →
    Except CascadeError (CascadeResult T)
  | _, [], b =>
    match b.bestResponse with
    | none => Except.error CascadeError.allCascadeStepsFailed
    | some r => Except.ok ⟨r, b.bestProvider, b.bestModel, b.bestStep, total, 0⟩
  | i, step :: rest, b =>
    match run i with
    | none => executeCascadeGo run evalQ total (i + 1) rest b
    | some response =>
      let quality := evalQ response
      let b2 : CascadeBest T :=
        if b.bestQuality < quality then
          ⟨some response, quality, step.provider, step.model, i⟩
        else b
      if step.qualityThreshold ≤ quality then
        Except.ok ⟨response, step.provider, step.model, i, total, 0⟩
      else
        executeCascadeGo run evalQ total (i + 1) rest b2

/-- `executeCascade` (smart-router.ts lines 297–368): the best-so-far record
starts with `bestResponse = null`, `bestQuality = 0` and the provider/model of
step 0 (reading `chain[0]` of an empty chain raises a TypeError). -/
def executeCascade {T : Type} (chain : List CascadeStep) (run : Nat → Option T)
    (evalQ : T → ℚ) : Except CascadeError (CascadeResult T) :=
  match chain with
  | [] => Except.error CascadeError.typeError
  | c0 :: _ =>
    executeCascadeGo run evalQ chain.length 0 chain
      ⟨none, 0, c0.provider, c0.model, 0⟩

/-- The score the cascade would compute at step `j`: `none` when `run`
raises there. -/
def runScore {T : Type} (run : Nat → Option T) (evalQ : T → ℚ) (j : Nat) :
    Option ℚ :=
  (run j).map evalQ

/-- Step `j` qualifies: its `run` call succeeds and the score meets the
step's own quality threshold. -/
def QualifiesAt {T : Type} (chain : List CascadeStep) (run : Nat → Option T)
    (evalQ : T → ℚ) (j : Nat) : Prop :=
  ∃ r s, run j = some r ∧ chain[j]? = some s ∧
    s.qualityThreshold ≤ evalQ r

/-- Invariant of the best-so-far record before processing chain index `i`. -/
def CascadeInv {T : Type} (chain : List CascadeStep) (run : Nat → Option T)
    (evalQ : T → ℚ) (i : Nat) (b : CascadeBest T) : Prop :=
  (b.bestResponse = none ∧ b.bestQuality = 0 ∧
    ∀ j, j < i → ∀ r, run j = some r → evalQ r ≤ 0) ∨
  (∃ r s, b.bestResponse = some r ∧ run b.bestStep = some r ∧
    evalQ r = b.bestQuality ∧ 0 < b.bestQuality ∧ b.bestStep < i ∧
    chain[b.bestStep]? = some s ∧ b.bestProvider = s.provider ∧
    b.bestModel = s.model ∧
    (∀ j, j < i → ∀ q, runScore run evalQ j = some q → q ≤ b.bestQuality) ∧
    (∀ j, j < b.bestStep → ∀ q, runScore run evalQ j = some q →
      q < b.bestQuality))

/-- Full characterisation of a cascade outcome: an `ok` result is either the
first qualifying step, or — when no step qualifies — the earliest successful
step of maximal (and positive) score; the `allCascadeStepsFailed` error means
every step raised or scored non-positively below its threshold. -/
def CascadePost {T : Type} (chain : List CascadeStep) (run : Nat → Option T)
    (evalQ : T → ℚ) (total : Nat) :
    Except CascadeError (CascadeResult T) → Prop
  | Except.error CascadeError.typeError => False
  | Except.error CascadeError.allCascadeStepsFailed =>
    ∀ j, j < chain.length →
      (∀ r, run j = some r → evalQ r ≤ 0) ∧
      ¬ QualifiesAt chain run evalQ j
  | Except.ok out =>
    out.totalSteps = total ∧ out.step < chain.length ∧
    (∃ s, chain[out.step]? = some s ∧ out.provider = s.provider ∧
      out.model = s.model) ∧
    run out.step = some out.response ∧
    (∀ j, j < out.step → ¬ QualifiesAt chain run evalQ j) ∧
    (QualifiesAt chain run evalQ out.step ∨
      ((∀ j, j < chain.length → ¬ QualifiesAt chain run evalQ j) ∧
        0 < evalQ out.response ∧
        (∀ j, j < chain.length → ∀ q, runScore run evalQ j = some q →
          q ≤ evalQ out.response) ∧
        (∀ j, j < out.step → ∀ q, runScore run evalQ j = some q →
          q < evalQ out.response)))

-- ─── Cost book (smart-router.ts, cost-calculator section) ───────────────────

/-- A model cost profile (`ModelCostProfile` in `types.ts`).  Capabilities
and suitability lists are kept as strings, as in the source literals. -/
structure ModelCostProfile where
  provider : ProviderName
  model : String
  inputCostPer1k : ℚ
  outputCostPer1k : ℚ
  perRequestCost : ℚ
  maxOutputTokens : ℕ
  contextWindow : ℕ
  suitableFor : List QueryComplexity
  capabilities : List String
deriving DecidableEq, Repr

/-- The static `MODEL_COSTS` registry, transcribed from the source. -/
def MODEL_COSTS : List ModelCostProfile := [
  ⟨ProviderName.perplexity, "sonar", 0.001, 0.001, 0.005, 16384, 128000,
    [QueryComplexity.simple], ["web_search", "citations"]⟩,
  ⟨ProviderName.perplexity, "sonar-pro", 0.003, 0.015, 0.005, 16384, 200000,
    [QueryComplexity.simple, QueryComplexity.medium],
    ["web_search", "deep_search", "citations", "images"]⟩,
  ⟨ProviderName.perplexity, "sonar-reasoning-pro", 0.002, 0.008, 0.005,
    16384, 128000, [QueryComplexity.medium, QueryComplexity.complex],
    ["web_search", "reasoning", "chain_of_thought", "citations"]⟩,
  ⟨ProviderName.openai, "gpt-4o-mini", 0.00015, 0.0006, 0, 16384, 128000,
    [QueryComplexity.simple, QueryComplexity.medium],
    ["code", "long_context"]⟩,
  ⟨ProviderName.openai, "gpt-4o", 0.0025, 0.01, 0, 4096, 128000,
    [QueryComplexity.medium, QueryComplexity.complex],
    ["code", "reasoning", "long_context"]⟩,
  ⟨ProviderName.anthropic, "claude-sonnet-4-5", 0.003, 0.015, 0, 8192,
    200000, [QueryComplexity.complex], ["code", "reasoning", "long_context"]⟩,
  ⟨ProviderName.anthropic, "claude-opus-4-6", 0.015, 0.075, 0, 32768,
    200000, [QueryComplexity.complex], ["code", "reasoning", "long_context"]⟩]

/-- `getModelCostProfile`: linear search of the registry. -/
def getModelCostProfile (provider : ProviderName) (model : String) :
    Option ModelCostProfile :=
  MODEL_COSTS.find? fun m => m.provider = provider ∧ m.model = model

/-- The cost breakdown carried inside a `CostEstimate`. -/
structure CostBreakdown where
  inputCost : ℚ
  outputCost : ℚ
  perRequestCost : ℚ
deriving DecidableEq, Repr

/-- A pre-flight cost estimate (`CostEstimate` in `types.ts`). -/
structure CostEstimate where
  provider : ProviderName
  model : String
  estimatedInputTokens : ℚ
  estimatedOutputTokens : ℚ
  estimatedCost : ℚ
  breakdown : CostBreakdown
deriving DecidableEq, Repr

/-- `estimateCost` (smart-router.ts): an unknown provider/model pair yields
the zero-cost sentinel estimate; otherwise per-token costs are priced from
the profile. -/
def estimateCost (provider : ProviderName) (model : String)
    (estimatedInputTokens estimatedOutputTokens : ℚ) : CostEstimate :=
  match getModelCostProfile provider model with
  | none =>
    ⟨provider, model, estimatedInputTokens, estimatedOutputTokens, 0,
      ⟨0, 0, 0⟩⟩
  | some profile =>
    let inputCost := estimatedInputTokens / 1000 * profile.inputCostPer1k
    let outputCost := estimatedOutputTokens / 1000 * profile.outputCostPer1k
    ⟨provider, model, estimatedInputTokens, estimatedOutputTokens,
      inputCost + outputCost + profile.perRequestCost,
      ⟨inputCost, outputCost, profile.perRequestCost⟩⟩

-- ─── Budget tracker (budget-tracker.ts) ─────────────────────────────────────

/-- Budget periods. -/
inductive BudgetPeriod
  | daily
  | weekly
  | monthly
deriving DecidableEq, Repr

/-- An actual, recorded cost (`ActualCost` in `types.ts`). -/
structure ActualCost where
  provider : ProviderName
  model : String
  inputTokens : ℚ
  outputTokens : ℚ
  totalCost : ℚ
  timestamp : ℤ
deriving DecidableEq, Repr

/-- Alert actions of a budget threshold. -/
inductive AlertAction
  | log
  | notify
  | emergency_mode
deriving DecidableEq, Repr

/-- One alert threshold (`BudgetAlertThreshold`); notification channels are
irrelevant to the verified properties and omitted. -/
structure BudgetAlertThreshold where
  percentage : ℚ
  action : AlertAction
deriving DecidableEq, Repr

/-- Emergency-mode configuration (`EmergencyModeConfig`). -/
structure EmergencyModeConfig where
  enabled : Bool
  forceCheapestModels : Bool
  disableProviders : List ProviderName
  notifyAdmin : Bool
deriving DecidableEq, Repr

/-- Budget configuration (`BudgetConfig`). -/
structure BudgetConfig where
  dailyLimit : ℚ
  weeklyLimit : ℚ
  monthlyLimit : ℚ
  alertThresholds : List BudgetAlertThreshold
  emergencyMode : EmergencyModeConfig
deriving DecidableEq, Repr

/-- A derived budget status snapshot (`BudgetStatus`). -/
structure BudgetStatus where
  period : BudgetPeriod
  limit : ℚ
  spent : ℚ
  remaining : ℚ
  percentUsed : ℚ
  periodStart : ℤ
  periodEnd : ℤ
deriving DecidableEq, Repr

/-- The mutable state of a `BudgetTracker`: the append-only cost log, the
configuration, the emergency latch and the set of fired alert keys.  An alert
key `percentage-action` is modelled as the pair. -/
structure BudgetTracker where
  costs : List ActualCost
  config : BudgetConfig
  emergencyModeActive : Bool
  alertsFired : List (ℚ × AlertAction)
deriving DecidableEq, Repr

/-- A period-bounds function: the model of `getPeriodBounds(period, now)`.
The source computes local-calendar bounds with the JS `Date` class; every
theorem below holds for an arbitrary bounds function. -/
def PeriodBounds : Type := BudgetPeriod → ℤ → ℤ × ℤ

/-- `getLimit`: the configured limit of a period. -/
def getLimit (config : BudgetConfig) (period : BudgetPeriod) : ℚ :=
  match period with
  | BudgetPeriod.daily => config.dailyLimit
  | BudgetPeriod.weekly => config.weeklyLimit
  | BudgetPeriod.monthly => config.monthlyLimit

/-- `BudgetTracker.getStatus`: filter-and-sum the cost log over the period
window, round spent/remaining to micro-USD and percentUsed to 0.01 %. -/
def getStatus (bounds : PeriodBounds) (t : BudgetTracker)
    (period : BudgetPeriod) (now : ℤ) : BudgetStatus :=
  let se := bounds period now
  let limit := getLimit t.config period
  let spent := (t.costs.filter fun c =>
    se.1 ≤ c.timestamp ∧ c.timestamp < se.2).foldl
    (fun sum c => sum + c.totalCost) 0
  let remaining := max 0 (limit - spent)
  let percentUsed := if 0 < limit then spent / limit * 100 else 0
  ⟨period, limit, mathRound (spent * 1000000) / 1000000,
    mathRound (remaining * 1000000) / 1000000,
    mathRound (percentUsed * 100) / 100, se.1, se.2⟩

/-- One iteration of the `checkAlerts` loop, acting on the pair
(fired alert keys, emergency latch): a threshold fires when the daily
percent-used reaches it and its key has not fired yet; the
`emergency_mode` action latches the emergency flag if enabled. -/
def alertStep (enabled : Bool) (percentUsed : ℚ)
    (acc : List (ℚ × AlertAction) × Bool) (th : BudgetAlertThreshold) :
    List (ℚ × AlertAction) × Bool :=
  if th.percentage ≤ percentUsed ∧ (th.percentage, th.action) ∉ acc.1 then
    ((th.percentage, th.action) :: acc.1,
      match th.action with
      | AlertAction.emergency_mode => if enabled then true else acc.2
      | _ => acc.2)
  else acc

/-- `BudgetTracker.checkAlerts`: walk the configured thresholds against the
daily status, accumulating fired keys and the emergency latch. -/
def checkAlerts (bounds : PeriodBounds) (t : BudgetTracker) (now : ℤ) :
    BudgetTracker :=
  let daily := getStatus bounds t BudgetPeriod.daily now
  let res := t.config.alertThresholds.foldl
    (alertStep t.config.emergencyMode.enabled daily.percentUsed)
    (t.alertsFired, t.emergencyModeActive)
  { t with alertsFired := res.1, emergencyModeActive := res.2 }

/-- `BudgetTracker.recordCost`: append the cost and re-check alerts. -/
def recordCost (bounds : PeriodBounds) (t : BudgetTracker) (c : ActualCost)
    (now : ℤ) : BudgetTracker :=
  checkAlerts bounds { t with costs := t.costs ++ [c] } now

/-- `BudgetTracker.setEmergencyMode`: force the latch on or off. -/
def setEmergencyMode (t : BudgetTracker) (active : Bool) : BudgetTracker :=
  { t with emergencyModeActive := active }

/-- `BudgetTracker.resetAlerts`: clear the fired set and the latch. -/
def resetAlerts (t : BudgetTracker) : BudgetTracker :=
  { t with alertsFired := [], emergencyModeActive := false }

/-- A partial budget configuration (`Partial<BudgetConfig>`): each absent
field keeps its current value on merge. -/
structure BudgetConfigPatch where
  dailyLimit : Option ℚ
  weeklyLimit : Option ℚ
  monthlyLimit : Option ℚ
  alertThresholds : Option (List BudgetAlertThreshold)
  emergencyMode : Option EmergencyModeConfig
deriving DecidableEq, Repr

/-- The spread merge `{ ...config, ...patch }`. -/
def mergeConfig (c : BudgetConfig) (p : BudgetConfigPatch) : BudgetConfig :=
  ⟨p.dailyLimit.getD c.dailyLimit, p.weeklyLimit.getD c.weeklyLimit,
    p.monthlyLimit.getD c.monthlyLimit,
    p.alertThresholds.getD c.alertThresholds,
    p.emergencyMode.getD c.emergencyMode⟩

/-- `BudgetTracker.updateConfig`: merge, clear fired alerts, re-check. -/
def updateConfig (bounds : PeriodBounds) (t : BudgetTracker)
    (p : BudgetConfigPatch) (now : ℤ) : BudgetTracker :=
  checkAlerts bounds
    { t with config := mergeConfig t.config p, alertsFired := [] } now

/-- `BudgetTracker.prune`: drop cost records older than 90 days. -/
def prune (t : BudgetTracker) (now : ℤ) : BudgetTracker :=
  { t with costs := t.costs.filter fun c =>
      now - 90 * 24 * 60 * 60 * 1000 ≤ c.timestamp }

/-- The mutating operations of a `BudgetTracker` (its public surface apart
from the pure getters). -/
inductive TrackerOp
  | recordCost (c : ActualCost) (now : ℤ)
  | setEmergencyMode (active : Bool)
  | updateConfig (p : BudgetConfigPatch) (now : ℤ)
  | prune (now : ℤ)
  | resetAlerts
deriving DecidableEq, Repr

/-- Apply one tracker operation. -/
def applyOp (bounds : PeriodBounds) (t : BudgetTracker) :
    TrackerOp → BudgetTracker
  | TrackerOp.recordCost c now => recordCost bounds t c now
  | TrackerOp.setEmergencyMode active => setEmergencyMode t active
  | TrackerOp.updateConfig p now => updateConfig bounds t p now
  | TrackerOp.prune now => prune t now
  | TrackerOp.resetAlerts => resetAlerts t

-- ─── Orchestrator budget admission (agent-manager.ts, processQuery) ─────────

/-- The artifact types `processQuery` can record on the request path. -/
inductive ArtifactType
  | cache_hit
  | budget_reject
  | route_decision
  | cascade_step
deriving DecidableEq, Repr

/-- Errors surfaced by `processQuery`. -/
inductive AgentError
  | budgetExceeded
  | providerFailure
  | allCascadeStepsFailed
deriving DecidableEq, Repr

/-- Outcome of one `processQuery` call: the artifacts recorded in order, the
result (or thrown error, with the `cacheHit` flag on success), and how many
provider `chat` calls were made. -/
structure ProcessQueryOutcome where
  artifacts : List ArtifactType
  result : Except AgentError Bool
  providerCalls : ℕ
deriving Repr

/-- The execution phase of `processQuery` (steps 5–8: cascade or direct
provider call), abstracted to its observable effect: how many provider calls
it made, how many `cascade_step` artifacts its `onStep` callback recorded,
and whether it returned or raised.  Only `cascade_step` artifacts can be
produced in this phase. -/
structure ExecutionPhase where
  providerCalls : ℕ
  cascadeSteps : ℕ
  outcome : Except AgentError Unit
deriving Repr

/-- `AgentManager.processQuery` after classification, modelled from the
control flow of agent-manager.ts lines 127–307: a cache hit returns at once
with a `cache_hit` artifact; otherwise the daily budget status is consulted —
`percentUsed ≥ 100` records a `budget_reject` artifact and throws
`BudgetExceeded` before any routing or provider call; otherwise a
`route_decision` artifact is recorded and the execution phase runs. -/
def processQuery (bounds : PeriodBounds) (budget : BudgetTracker) (now : ℤ)
    (cacheResult : Option ℚ) (execution : ExecutionPhase) :
    ProcessQueryOutcome :=
  match cacheResult with
  | some _ => ⟨[ArtifactType.cache_hit], Except.ok true, 0⟩
  | none =>
    let dailyStatus := getStatus bounds budget BudgetPeriod.daily now
    if 100 ≤ dailyStatus.percentUsed then
      ⟨[ArtifactType.budget_reject], Except.error AgentError.budgetExceeded, 0⟩
    else
      let arts := ArtifactType.route_decision ::
        List.replicate execution.cascadeSteps ArtifactType.cascade_step
      match execution.outcome with
      | Except.error e => ⟨arts, Except.error e, execution.providerCalls⟩
      | Except.ok _ => ⟨arts, Except.ok false, execution.providerCalls⟩

-- ─── Semantic cache (cache/semantic.ts) ─────────────────────────────────────

/-- A cache entry (`CacheEntry` in `types.ts`; the optional embedding vector
is unused by `lookup` and omitted). -/
structure CacheEntry where
  queryHash : String
  queryText : String
  response : String
  provider : ProviderName
  model : String
  cost : ℚ
  tokensUsed : ℕ
  createdAt : ℤ
  expiresAt : ℤ
  hitCount : ℕ
deriving DecidableEq, Repr

/-- The adapter state: an association of keys to entries (`get` is key
lookup, `entries` enumerates the stored entries). -/
def CacheStore : Type := List (String × CacheEntry)

/-- The non-expired stored entries (`active` in `lookup`). -/
def activeEntries (st : CacheStore) (now : ℤ) : List CacheEntry :=
  (st.map Prod.snd).filter fun e => now < e.expiresAt

/-- The best-entry/best-similarity fold of the semantic scan: strictly
improving, starting from `(null, 0)`. -/
def scanBest (simOf : CacheEntry → ℚ) (active : List CacheEntry) :
    Option CacheEntry × ℚ :=
  active.foldl
    (fun (acc : Option CacheEntry × ℚ) e =>
      if acc.2 < simOf e then (some e, simOf e) else acc)
    (none, 0)

/-- The semantic-similarity scan of `lookup` (semantic.ts lines 139–177):
restrict to non-expired entries, select the entry of maximal similarity,
and return it when the best similarity reaches the threshold.  The
bag-of-words cosine similarity the source computes for each stored entry is
abstracted as an arbitrary score function `simOf`; every theorem below
holds for every such function. -/
def semanticScan (st : CacheStore) (simOf : CacheEntry → ℚ) (threshold : ℚ)
    (now : ℤ) : Option (CacheEntry × ℚ) :=
  if (activeEntries st now).isEmpty then none
  else
    match (scanBest simOf (activeEntries st now)).1 with
    | some bestEntry =>
      if threshold ≤ (scanBest simOf (activeEntries st now)).2 then
        some ({ bestEntry with hitCount := bestEntry.hitCount + 1 },
          (scanBest simOf (activeEntries st now)).2)
      else none
    | none => none

/-- `SemanticCache.lookup` (semantic.ts lines 126–181): hash the query with
`hashString` (modelled as an arbitrary deterministic function `hashF`; the
source takes the SHA-256 digest of the trimmed, lowercased text truncated to
16 hex characters) and try the exact-hash path; a present, non-expired entry
is returned with similarity 1.0 and a bumped hit count, otherwise the
semantic scan runs. -/
def lookup (st : CacheStore) (hashF : String → String)
    (simOf : CacheEntry → ℚ) (threshold : ℚ) (now : ℤ) (query : String) :
    Option (CacheEntry × ℚ) :=
  match (st.find? fun kv => kv.1 = hashF query).map Prod.snd with
  | some exact0 =>
    if now < exact0.expiresAt then
      some ({ exact0 with hitCount := exact0.hitCount + 1 }, 1)
    else semanticScan st simOf threshold now
  | none => semanticScan st simOf threshold now

-- ─── Quality estimator (quality-estimator.ts) ───────────────────────────────

/-- The classified-query fields the quality estimator reads. -/
structure ClassifiedQueryQE where
  complexity : QueryComplexity
  intent : QueryIntent
deriving DecidableEq, Repr

/-- The observations the quality estimator extracts from a `ChatResponse`.
The regular-expression tests over the response text, the citation-URL
hostname set and the response metadata are abstracted into their results;
the signal scorers below are proved for every possible observation. -/
structure ResponseObs where
  provider : ProviderName
  citationCount : ℕ
  distinctCitationDomains : ℕ
  highConfMatches : ℕ
  lowConfMatches : ℕ
  refusalMatches : ℕ
  hasHeadings : Bool
  hasList : Bool
  hasCodeBlock : Bool
  hasBold : Bool
  paragraphCount : ℕ
  contentLength : ℕ
  inputTokens : ℕ
  outputTokens : ℕ
  responseTimeMs : ℤ
deriving DecidableEq, Repr

/-- The fixed signal weights (`SIGNAL_WEIGHTS`). -/
structure SignalWeights where
  citationQuality : ℚ
  confidenceLanguage : ℚ
  structuralCompleteness : ℚ
  lengthAppropriateness : ℚ
  latencyVsExpected : ℚ
  tokenEfficiency : ℚ
deriving DecidableEq, Repr

/-- The `SIGNAL_WEIGHTS` constant. -/
def SIGNAL_WEIGHTS : SignalWeights :=
  ⟨0.25, 0.2, 0.2, 0.15, 0.1, 0.1⟩

/-- One scored quality signal (`QualitySignal`; the human-readable detail
string is omitted). -/
structure QualitySignal where
  name : String
  score : ℚ
  weight : ℚ
deriving DecidableEq, Repr

/-- The count-banded part of `scoreCitationQuality`: 2–5 citations score
high, 0–1 are questionable (worse from a search provider), more than 8
suggest a lack of synthesis. -/
def citationBaseScore (r : ResponseObs) : ℚ :=
  if r.citationCount = 0 then
    if r.provider = ProviderName.perplexity then 3.0 else 6.0
  else if r.citationCount = 1 then 6.0
  else if r.citationCount ≤ 5 then 9.0
  else if r.citationCount ≤ 8 then 7.5
  else 6.0

/-- `scoreCitationQuality`: banded by citation count, with a +0.5 bonus
(capped at 10) for diverse source hostnames. -/
def scoreCitationQuality (r : ResponseObs) : QualitySignal :=
  let score := citationBaseScore r
  let score :=
    if 2 ≤ r.citationCount ∧
        min 3 r.citationCount ≤ r.distinctCitationDomains then
      min 10 (score + 0.5)
    else score
  ⟨"citationQuality", score, SIGNAL_WEIGHTS.citationQuality⟩

/-- `scoreConfidenceLanguage`: baseline 7, any refusal pattern short-circuits
to 1, otherwise shifted by the clamped net confidence and clamped to
[0, 10]. -/
def scoreConfidenceLanguage (r : ResponseObs) : QualitySignal :=
  if 0 < r.refusalMatches then
    ⟨"confidenceLanguage", 1.0, SIGNAL_WEIGHTS.confidenceLanguage⟩
  else
    let net : ℚ := (r.highConfMatches : ℚ) - (r.lowConfMatches : ℚ) * 2
    let score : ℚ := 7.0 + max (-5) (min 3 (net * 0.5))
    let score := max 0 (min 10 score)
    ⟨"confidenceLanguage", score, SIGNAL_WEIGHTS.confidenceLanguage⟩

/-- `scoreStructuralCompleteness`: base 5 plus structure credits scaled by
complexity, −2 when a code query has no code block, clamped to [0, 10]. -/
def scoreStructuralCompleteness (r : ResponseObs) (q : ClassifiedQueryQE) :
    QualitySignal :=
  let score : ℚ := 5.0
  let score :=
    match q.complexity with
    | QueryComplexity.simple =>
      let score := if 1 ≤ r.paragraphCount then score + 2 else score
      let score := if r.hasList ∨ r.hasBold then score + 1 else score
      if 50 < r.contentLength then score + 1 else score
    | QueryComplexity.medium =>
      let score := if 2 ≤ r.paragraphCount then score + 1 else score
      let score := if r.hasHeadings then score + 1 else score
      let score := if r.hasList then score + 1 else score
      let score := if r.hasBold then score + 0.5 else score
      if 200 < r.contentLength then score + 1 else score
    | QueryComplexity.complex =>
      let score := if r.hasHeadings then score + 1.5 else score
      let score := if r.hasList then score + 1 else score
      let score :=
        if r.hasCodeBlock ∧ q.intent = QueryIntent.code then score + 1
        else score
      let score := if r.hasBold then score + 0.5 else score
      if 3 ≤ r.paragraphCount then score + 1 else score
  let score :=
    if q.intent = QueryIntent.code ∧ ¬ r.hasCodeBlock then score - 2
    else score
  let score := max 0 (min 10 score)
  ⟨"structuralCompleteness", score, SIGNAL_WEIGHTS.structuralCompleteness⟩

/-- The expected token band of a complexity level
(`EXPECTED_TOKENS_BY_COMPLEXITY`). -/
def expectedTokens (c : QueryComplexity) : ℚ × ℚ × ℚ :=
  match c with
  | QueryComplexity.simple => (50, 500, 200)
  | QueryComplexity.medium => (150, 1500, 600)
  | QueryComplexity.complex => (300, 4000, 1500)

/-- `scoreLengthAppropriateness`: band the output-token count against the
expected (min, max, ideal) triple of the query complexity. -/
def scoreLengthAppropriateness (r : ResponseObs) (q : ClassifiedQueryQE) :
    QualitySignal :=
  let expected := expectedTokens q.complexity
  let lowT := expected.1
  let highT := expected.2.1
  let ideal := expected.2.2
  let totalTokens : ℚ := (r.outputTokens : ℚ)
  let score : ℚ :=
    if totalTokens < lowT then max 2 (totalTokens / lowT * 7)
    else if highT < totalTokens then
      max 4 (10 - (totalTokens / highT - 1) * 3)
    else max 7 (10 - |totalTokens - ideal| / ideal * 3)
  let score := max 0 (min 10 score)
  ⟨"lengthAppropriateness", score, SIGNAL_WEIGHTS.lengthAppropriateness⟩

/-- The expected latency of a complexity level
(`EXPECTED_LATENCY_BY_COMPLEXITY`). -/
def expectedLatency (c : QueryComplexity) : ℚ :=
  match c with
  | QueryComplexity.simple => 2000
  | QueryComplexity.medium => 5000
  | QueryComplexity.complex => 10000

/-- `scoreLatencyVsExpected`: banded against the expected latency; an
unknown (non-positive) latency is scored neutrally. -/
def scoreLatencyVsExpected (r : ResponseObs) (q : ClassifiedQueryQE) :
    QualitySignal :=
  let expectedMs := expectedLatency q.complexity
  let actualMs : ℚ := (r.responseTimeMs : ℚ)
  let score : ℚ :=
    if actualMs ≤ 0 then 7
    else if actualMs ≤ expectedMs * 0.5 then 10
    else if actualMs ≤ expectedMs then 9
    else if actualMs ≤ expectedMs * 2 then 6
    else 3
  ⟨"latencyVsExpected", score, SIGNAL_WEIGHTS.latencyVsExpected⟩

/-- `scoreTokenEfficiency`: banded output/input token ratio, neutral when
either count is zero. -/
def scoreTokenEfficiency (r : ResponseObs) : QualitySignal :=
  if r.inputTokens = 0 ∨ r.outputTokens = 0 then
    ⟨"tokenEfficiency", 5, SIGNAL_WEIGHTS.tokenEfficiency⟩
  else
    let outIn : ℚ := (r.outputTokens : ℚ) / (r.inputTokens : ℚ)
    let score : ℚ :=
      if outIn < 0.5 then 4
      else if outIn ≤ 5 then 9
      else if outIn ≤ 10 then 7
      else 5
    ⟨"tokenEfficiency", score, SIGNAL_WEIGHTS.tokenEfficiency⟩

/-- A quality report.  The `confidence` field of the source (a standard
deviation through `Math.sqrt`) is irrational-valued and not needed by any
verified property; it is omitted. -/
structure QualityReport where
  overallScore : ℚ
  signals : List QualitySignal
deriving DecidableEq, Repr

/-- `QualityEstimator.estimate`: collect the six signals and reduce the
weighted sum, exactly as quality-estimator.ts lines 257–273. -/
def estimate (r : ResponseObs) (q : ClassifiedQueryQE) : QualityReport :=
  let signals := [scoreCitationQuality r, scoreConfidenceLanguage r,
    scoreStructuralCompleteness r q, scoreLengthAppropriateness r q,
    scoreLatencyVsExpected r q, scoreTokenEfficiency r]
  let overallScore := signals.foldl (fun sum s => sum + s.score * s.weight) 0
  ⟨overallScore, signals⟩

-- ─── Shared helper lemmas ───────────────────────────────────────────────────

/-- Summing a cost list by left fold equals the sum of the mapped costs. -/
theorem foldl_add_totalCost (l : List ActualCost) (a : ℚ) :
    l.foldl (fun sum c => sum + c.totalCost) a =
      a + (l.map ActualCost.totalCost).sum := by
  induction l generalizing a with
  | nil => simp
  | cons h t ih =>
    rw [List.foldl_cons, ih, List.map_cons, List.sum_cons]
    ring

-- ─── C8: cost estimates add up ──────────────────────────────────────────────

/-- C8: for every provider/model pair and token counts, the estimate equals
the sum of its breakdown; on a registered pair the input/output components
are priced per 1k tokens from the profile, and on an unregistered pair the
zero-cost sentinel estimate is returned rather than an error. -/
theorem estimateCost_breakdown (provider : ProviderName) (model : String)
    (inTok outTok : ℚ) :
    (estimateCost provider model inTok outTok).estimatedCost =
      (estimateCost provider model inTok outTok).breakdown.inputCost +
        (estimateCost provider model inTok outTok).breakdown.outputCost +
        (estimateCost provider model inTok outTok).breakdown.perRequestCost ∧
    (∀ profile, getModelCostProfile provider model = some profile →
      (estimateCost provider model inTok outTok).breakdown.inputCost =
          inTok / 1000 * profile.inputCostPer1k ∧
        (estimateCost provider model inTok outTok).breakdown.outputCost =
          outTok / 1000 * profile.outputCostPer1k ∧
        (estimateCost provider model inTok outTok).breakdown.perRequestCost =
          profile.perRequestCost) ∧
    (getModelCostProfile provider model = none →
      estimateCost provider model inTok outTok =
        ⟨provider, model, inTok, outTok, 0, ⟨0, 0, 0⟩⟩) := by
  refine ⟨?_, ?_, ?_⟩
  · cases h : getModelCostProfile provider model with
    | none => simp [estimateCost, h]
    | some profile => simp [estimateCost, h]
  · intro profile hp
    refine ⟨?_, ?_, ?_⟩ <;> simp [estimateCost, hp]
  · intro hp
    simp [estimateCost, hp]

/-- Witness for C8 at the registered pair (openai, gpt-4o) with 1000 input
and 2000 output tokens. -/
theorem estimateCost_breakdown_witness :
    (estimateCost ProviderName.openai "gpt-4o" 1000 2000).estimatedCost =
      (estimateCost ProviderName.openai "gpt-4o" 1000 2000).breakdown.inputCost
        + (estimateCost ProviderName.openai "gpt-4o"
            1000 2000).breakdown.outputCost
        + (estimateCost ProviderName.openai "gpt-4o"
            1000 2000).breakdown.perRequestCost ∧
    (estimateCost ProviderName.openai "gpt-4o" 1000 2000).breakdown.outputCost
      = 2000 / 1000 * (0.01 : ℚ) ∧
    estimateCost ProviderName.openai "no-such-model" 1000 2000 =
      ⟨ProviderName.openai, "no-such-model", 1000, 2000, 0, ⟨0, 0, 0⟩⟩ :=
  ⟨(estimateCost_breakdown ProviderName.openai "gpt-4o" 1000 2000).1,
    ((estimateCost_breakdown ProviderName.openai "gpt-4o" 1000 2000).2.1
      ⟨ProviderName.openai, "gpt-4o", 0.0025, 0.01, 0, 4096, 128000,
        [QueryComplexity.medium, QueryComplexity.complex],
        ["code", "reasoning", "long_context"]⟩ rfl).2.1,
    (estimateCost_breakdown ProviderName.openai "no-such-model" 1000
      2000).2.2 rfl⟩

-- ─── C4: getStatus spend is the windowed sum ────────────────────────────────

/-- C4: for every cost history, bounds function, period and time, the
status's `spent` is the sum of `totalCost` over exactly the recorded costs
whose timestamp lies in `[periodStart, periodEnd)`, rounded to micro-USD;
`remaining` is the clamped difference, likewise rounded. -/
theorem getStatus_spent_sum (bounds : PeriodBounds) (t : BudgetTracker)
    (period : BudgetPeriod) (now : ℤ) :
    (getStatus bounds t period now).spent =
      mathRound (((t.costs.filter fun c =>
          (getStatus bounds t period now).periodStart ≤ c.timestamp ∧
            c.timestamp < (getStatus bounds t period now).periodEnd).map
          ActualCost.totalCost).sum * 1000000) / 1000000 ∧
    (getStatus bounds t period now).remaining =
      mathRound (max 0 (getLimit t.config period -
        ((t.costs.filter fun c =>
          (getStatus bounds t period now).periodStart ≤ c.timestamp ∧
            c.timestamp < (getStatus bounds t period now).periodEnd).map
          ActualCost.totalCost).sum) * 1000000) / 1000000 := by
  have hps : (getStatus bounds t period now).periodStart =
      (bounds period now).1 := rfl
  have hpe : (getStatus bounds t period now).periodEnd =
      (bounds period now).2 := rfl
  rw [hps, hpe]
  constructor
  · show mathRound ((t.costs.filter _).foldl
        (fun sum c => sum + c.totalCost) 0 * 1000000) / 1000000 = _
    rw [foldl_add_totalCost, zero_add]
  · show mathRound (max 0 (getLimit t.config period -
        (t.costs.filter _).foldl (fun sum c => sum + c.totalCost) 0)
        * 1000000) / 1000000 = _
    rw [foldl_add_totalCost, zero_add]

-- ─── C5/C6: semantic cache lookup ───────────────────────────────────────────

/-- The best entry selected by the semantic scan fold comes from the scanned
list (or was already in the accumulator). -/
theorem scanFold_mem (simOf : CacheEntry → ℚ) (l : List CacheEntry) :
    ∀ (acc : Option CacheEntry × ℚ) (e : CacheEntry),
      (l.foldl (fun acc e => if acc.2 < simOf e then (some e, simOf e)
        else acc) acc).1 = some e →
      acc.1 = some e ∨ e ∈ l := by
  induction l with
  | nil => intro acc e h; exact Or.inl h
  | cons hd tl ih =>
    intro acc e h
    rw [List.foldl_cons] at h
    rcases ih _ e h with hacc | hmem
    · by_cases hlt : acc.2 < simOf hd
      · rw [if_pos hlt] at hacc
        simp only [Option.some.injEq] at hacc
        exact Or.inr (hacc ▸ List.mem_cons_self hd tl)
      · rw [if_neg hlt] at hacc
        exact Or.inl hacc
    · exact Or.inr (List.mem_cons_of_mem hd hmem)

/-- A hit produced by the semantic scan is a non-expired stored entry with
its hit count bumped. -/
theorem semanticScan_fresh (st : CacheStore) (simOf : CacheEntry → ℚ)
    (threshold : ℚ) (now : ℤ) (e : CacheEntry) (sim : ℚ)
    (h : semanticScan st simOf threshold now = some (e, sim)) :
    now < e.expiresAt := by
  unfold semanticScan at h
  split at h
  · exact absurd h (by simp)
  · split at h
    · rename_i bestEntry heq
      split at h
      · rename_i hth
        have hmem : bestEntry ∈ activeEntries st now := by
          rcases scanFold_mem simOf (activeEntries st now) (none, 0)
              bestEntry heq with hacc | hmem
          · exact absurd hacc (by simp)
          · exact hmem
        have hfresh : now < bestEntry.expiresAt := by
          simp only [activeEntries, List.mem_filter, decide_eq_true_eq]
            at hmem
          exact hmem.2
        simp only [Option.some.injEq, Prod.mk.injEq] at h
        have he : e.expiresAt = bestEntry.expiresAt := by rw [← h.1]
        rw [he]
        exact hfresh
      · exact absurd h (by simp)
    · exact absurd h (by simp)

/-- C5: a lookup never returns an expired entry as a hit — every hit, from
the exact-hash path or the semantic scan, has `now < expiresAt`. -/
theorem lookup_never_returns_expired (st : CacheStore)
    (hashF : String → String) (simOf : CacheEntry → ℚ) (threshold : ℚ)
    (now : ℤ) (query : String) (e : CacheEntry) (sim : ℚ)
    (h : lookup st hashF simOf threshold now query = some (e, sim)) :
    now < e.expiresAt := by
  unfold lookup at h
  split at h
  · rename_i exact0 hfind
    split at h
    · rename_i hfresh
      simp only [Option.some.injEq, Prod.mk.injEq] at h
      have he : e.expiresAt = exact0.expiresAt := by rw [← h.1]
      rw [he]
      exact hfresh
    · exact semanticScan_fresh st simOf threshold now e sim h
  · exact semanticScan_fresh st simOf threshold now e sim h

/-- Witness for C5: a concrete store whose single entry is fresh at time 50;
the lookup hit it produces is indeed unexpired. -/
theorem lookup_never_returns_expired_witness :
    lookup [("k", ⟨"k", "q", "resp", ProviderName.openai, "m", 1, 10, 0, 100,
        0⟩)] (fun _ => "k") (fun _ => 0) (82 / 100) 50 "q" =
      some (⟨"k", "q", "resp", ProviderName.openai, "m", 1, 10, 0, 100, 1⟩,
        1) ∧
    (50 : ℤ) <
      (⟨"k", "q", "resp", ProviderName.openai, "m", 1, 10, 0, 100,
        1⟩ : CacheEntry).expiresAt :=
  ⟨rfl,
    lookup_never_returns_expired
      [("k", ⟨"k", "q", "resp", ProviderName.openai, "m", 1, 10, 0, 100, 0⟩)]
      (fun _ => "k") (fun _ => 0) (82 / 100) 50 "q"
      ⟨"k", "q", "resp", ProviderName.openai, "m", 1, 10, 0, 100, 1⟩ 1 rfl⟩

/-- C6: a stored, non-expired entry is found again by looking up exactly its
own query text: the exact-hash path returns it (hit count bumped) with
similarity 1.0 ≥ 0.99. -/
theorem lookup_exact_text_hit (st : CacheStore) (hashF : String → String)
    (simOf : CacheEntry → ℚ) (threshold : ℚ) (now : ℤ) (k : String)
    (e : CacheEntry)
    (hstored : (st.find? fun kv => kv.1 = hashF e.queryText) = some (k, e))
    (hfresh : now < e.expiresAt) :
    lookup st hashF simOf threshold now e.queryText =
      some ({ e with hitCount := e.hitCount + 1 }, 1) ∧
    (99 / 100 : ℚ) ≤ 1 := by
  refine ⟨?_, by norm_num⟩
  unfold lookup
  rw [hstored]
  exact if_pos hfresh

/-- Witness for C6 on a concrete one-entry store. -/
theorem lookup_exact_text_hit_witness :
    lookup [("h7", ⟨"h7", "what is rust", "resp", ProviderName.openai, "m",
        1, 10, 0, 100, 3⟩)] (fun _ => "h7") (fun _ => 0) (82 / 100) 50
      (⟨"h7", "what is rust", "resp", ProviderName.openai, "m", 1, 10, 0,
        100, 3⟩ : CacheEntry).queryText =
      some (⟨"h7", "what is rust", "resp", ProviderName.openai, "m", 1, 10,
        0, 100, 4⟩, 1) ∧
    (99 / 100 : ℚ) ≤ 1 :=
  lookup_exact_text_hit _ _ _ _ _ "h7" _ rfl (by norm_num)

-- ─── C9: quality estimator weighted sum and bounds ──────────────────────────

/-- The [0, 10] clamp used by several signal scorers stays in [0, 10]. -/
theorem clamp10_bounds (x : ℚ) :
    0 ≤ max 0 (min 10 x) ∧ max 0 (min 10 x) ≤ 10 :=
  ⟨le_max_left 0 _, max_le (by norm_num) (min_le_left 10 x)⟩

/-- The count-banded citation score lies in [0, 10]. -/
theorem citationBaseScore_bounds (r : ResponseObs) :
    0 ≤ citationBaseScore r ∧ citationBaseScore r ≤ 10 := by
  unfold citationBaseScore
  constructor <;> split_ifs <;> norm_num

/-- The citation-quality score lies in [0, 10]. -/
theorem scoreCitationQuality_bounds (r : ResponseObs) :
    0 ≤ (scoreCitationQuality r).score ∧
      (scoreCitationQuality r).score ≤ 10 := by
  obtain ⟨h1, h2⟩ := citationBaseScore_bounds r
  unfold scoreCitationQuality
  dsimp only
  split
  · exact ⟨le_min (by norm_num) (by linarith), min_le_left 10 _⟩
  · exact ⟨h1, h2⟩

/-- The confidence-language score lies in [0, 10]. -/
theorem scoreConfidenceLanguage_bounds (r : ResponseObs) :
    0 ≤ (scoreConfidenceLanguage r).score ∧
      (scoreConfidenceLanguage r).score ≤ 10 := by
  unfold scoreConfidenceLanguage
  split
  · exact ⟨by norm_num, by norm_num⟩
  · exact clamp10_bounds _

/-- The structural-completeness score lies in [0, 10]. -/
theorem scoreStructuralCompleteness_bounds (r : ResponseObs)
    (q : ClassifiedQueryQE) :
    0 ≤ (scoreStructuralCompleteness r q).score ∧
      (scoreStructuralCompleteness r q).score ≤ 10 := by
  unfold scoreStructuralCompleteness
  exact clamp10_bounds _

/-- The length-appropriateness score lies in [0, 10]. -/
theorem scoreLengthAppropriateness_bounds (r : ResponseObs)
    (q : ClassifiedQueryQE) :
    0 ≤ (scoreLengthAppropriateness r q).score ∧
      (scoreLengthAppropriateness r q).score ≤ 10 := by
  unfold scoreLengthAppropriateness
  exact clamp10_bounds _

/-- The latency score lies in [0, 10]. -/
theorem scoreLatencyVsExpected_bounds (r : ResponseObs)
    (q : ClassifiedQueryQE) :
    0 ≤ (scoreLatencyVsExpected r q).score ∧
      (scoreLatencyVsExpected r q).score ≤ 10 := by
  unfold scoreLatencyVsExpected
  dsimp only
  constructor <;> (split <;> norm_num) <;> (split <;> norm_num) <;>
    (split <;> norm_num) <;> split <;> norm_num

/-- The token-efficiency score lies in [0, 10]. -/
theorem scoreTokenEfficiency_bounds (r : ResponseObs) :
    0 ≤ (scoreTokenEfficiency r).score ∧
      (scoreTokenEfficiency r).score ≤ 10 := by
  unfold scoreTokenEfficiency
  split
  · exact ⟨by norm_num, by norm_num⟩
  · dsimp only
    constructor <;> (split <;> norm_num) <;> (split <;> norm_num) <;>
      split <;> norm_num

/-- The citation signal carries the fixed citation weight. -/
theorem scoreCitationQuality_weight (r : ResponseObs) :
    (scoreCitationQuality r).weight = SIGNAL_WEIGHTS.citationQuality := rfl

/-- The confidence signal carries the fixed confidence weight. -/
theorem scoreConfidenceLanguage_weight (r : ResponseObs) :
    (scoreConfidenceLanguage r).weight =
      SIGNAL_WEIGHTS.confidenceLanguage := by
  unfold scoreConfidenceLanguage
  split <;> rfl

/-- The structure signal carries the fixed structure weight. -/
theorem scoreStructuralCompleteness_weight (r : ResponseObs)
    (q : ClassifiedQueryQE) :
    (scoreStructuralCompleteness r q).weight =
      SIGNAL_WEIGHTS.structuralCompleteness := rfl

/-- The length signal carries the fixed length weight. -/
theorem scoreLengthAppropriateness_weight (r : ResponseObs)
    (q : ClassifiedQueryQE) :
    (scoreLengthAppropriateness r q).weight =
      SIGNAL_WEIGHTS.lengthAppropriateness := rfl

/-- The latency signal carries the fixed latency weight. -/
theorem scoreLatencyVsExpected_weight (r : ResponseObs)
    (q : ClassifiedQueryQE) :
    (scoreLatencyVsExpected r q).weight =
      SIGNAL_WEIGHTS.latencyVsExpected := rfl

/-- The efficiency signal carries the fixed efficiency weight. -/
theorem scoreTokenEfficiency_weight (r : ResponseObs) :
    (scoreTokenEfficiency r).weight = SIGNAL_WEIGHTS.tokenEfficiency := by
  unfold scoreTokenEfficiency
  split <;> rfl

/-- C9: the overall quality score is exactly the weighted sum of the six
signal scores with the fixed weights 0.25 / 0.20 / 0.20 / 0.15 / 0.10 /
0.10, the weights sum to 1.0, and — every signal score lying in [0, 10] —
the overall score lies in [0, 10]. -/
theorem estimate_overallScore_weighted (r : ResponseObs)
    (q : ClassifiedQueryQE) :
    (estimate r q).overallScore =
      (scoreCitationQuality r).score * (0.25 : ℚ) +
        (scoreConfidenceLanguage r).score * (0.2 : ℚ) +
        (scoreStructuralCompleteness r q).score * (0.2 : ℚ) +
        (scoreLengthAppropriateness r q).score * (0.15 : ℚ) +
        (scoreLatencyVsExpected r q).score * (0.1 : ℚ) +
        (scoreTokenEfficiency r).score * (0.1 : ℚ) ∧
    SIGNAL_WEIGHTS.citationQuality + SIGNAL_WEIGHTS.confidenceLanguage +
        SIGNAL_WEIGHTS.structuralCompleteness +
        SIGNAL_WEIGHTS.lengthAppropriateness +
        SIGNAL_WEIGHTS.latencyVsExpected + SIGNAL_WEIGHTS.tokenEfficiency
      = 1 ∧
    0 ≤ (estimate r q).overallScore ∧ (estimate r q).overallScore ≤ 10 := by
  have hsum : (estimate r q).overallScore =
      (scoreCitationQuality r).score * (0.25 : ℚ) +
        (scoreConfidenceLanguage r).score * (0.2 : ℚ) +
        (scoreStructuralCompleteness r q).score * (0.2 : ℚ) +
        (scoreLengthAppropriateness r q).score * (0.15 : ℚ) +
        (scoreLatencyVsExpected r q).score * (0.1 : ℚ) +
        (scoreTokenEfficiency r).score * (0.1 : ℚ) := by
    simp only [estimate, List.foldl_cons, List.foldl_nil]
    rw [scoreCitationQuality_weight, scoreConfidenceLanguage_weight,
      scoreStructuralCompleteness_weight, scoreLengthAppropriateness_weight,
      scoreLatencyVsExpected_weight, scoreTokenEfficiency_weight]
    simp only [SIGNAL_WEIGHTS]
    ring
  refine ⟨hsum, by norm_num [SIGNAL_WEIGHTS], ?_, ?_⟩
  · rw [hsum]
    obtain ⟨h1a, h1b⟩ := scoreCitationQuality_bounds r
    obtain ⟨h2a, h2b⟩ := scoreConfidenceLanguage_bounds r
    obtain ⟨h3a, h3b⟩ := scoreStructuralCompleteness_bounds r q
    obtain ⟨h4a, h4b⟩ := scoreLengthAppropriateness_bounds r q
    obtain ⟨h5a, h5b⟩ := scoreLatencyVsExpected_bounds r q
    obtain ⟨h6a, h6b⟩ := scoreTokenEfficiency_bounds r
    nlinarith
  · rw [hsum]
    obtain ⟨h1a, h1b⟩ := scoreCitationQuality_bounds r
    obtain ⟨h2a, h2b⟩ := scoreConfidenceLanguage_bounds r
    obtain ⟨h3a, h3b⟩ := scoreStructuralCompleteness_bounds r q
    obtain ⟨h4a, h4b⟩ := scoreLengthAppropriateness_bounds r q
    obtain ⟨h5a, h5b⟩ := scoreLatencyVsExpected_bounds r q
    obtain ⟨h6a, h6b⟩ := scoreTokenEfficiency_bounds r
    nlinarith

-- ─── Alert-fold helper lemmas ───────────────────────────────────────────────

/-- The alert fold never clears the emergency latch. -/
theorem alertFold_active_mono (enabled : Bool) (pct : ℚ)
    (l : List BudgetAlertThreshold) :
    ∀ acc : List (ℚ × AlertAction) × Bool, acc.2 = true →
      (l.foldl (alertStep enabled pct) acc).2 = true := by
  induction l with
  | nil => intro acc h; exact h
  | cons hd tl ih =>
    intro acc h
    rw [List.foldl_cons]
    apply ih
    unfold alertStep
    split
    · cases ha : hd.action <;> simp [ha, h]
    · exact h

/-- Every key fired by the alert fold was already fired or belongs to a
threshold whose percentage is at most the current percent-used. -/
theorem alertFold_fired_mem (enabled : Bool) (pct : ℚ)
    (l : List BudgetAlertThreshold) :
    ∀ (acc : List (ℚ × AlertAction) × Bool) (key : ℚ × AlertAction),
      key ∈ (l.foldl (alertStep enabled pct) acc).1 →
      key ∈ acc.1 ∨ key.1 ≤ pct := by
  induction l with
  | nil => intro acc key h; exact Or.inl h
  | cons hd tl ih =>
    intro acc key h
    rw [List.foldl_cons] at h
    rcases ih _ key h with hin | hle
    · unfold alertStep at hin
      split at hin
      · rename_i hcond
        rcases List.mem_cons.mp hin with rfl | hin2
        · exact Or.inr hcond.1
        · exact Or.inl hin2
      · exact Or.inl hin
    · exact Or.inr hle

/-- When emergency mode is enabled, an unfired `emergency_mode` threshold at
or below the current percent-used makes the alert fold latch. -/
theorem alertFold_triggers (pct : ℚ) (l : List BudgetAlertThreshold) :
    ∀ acc : List (ℚ × AlertAction) × Bool,
      (∃ th ∈ l, th.action = AlertAction.emergency_mode ∧
        th.percentage ≤ pct ∧ (th.percentage, th.action) ∉ acc.1) →
      (l.foldl (alertStep true pct) acc).2 = true := by
  induction l with
  | nil =>
    rintro acc ⟨th, hmem, _⟩
    cases hmem
  | cons hd tl ih =>
    rintro acc ⟨th, hmem, hact, hpct, hnot⟩
    rw [List.foldl_cons]
    rcases List.mem_cons.mp hmem with rfl | hmem
    · apply alertFold_active_mono
      unfold alertStep
      rw [if_pos ⟨hpct, hnot⟩]
      simp [hact]
    · by_cases hkey : (hd.percentage, hd.action) = (th.percentage, th.action)
      · obtain ⟨h1, h2⟩ := Prod.mk.injEq hd.percentage hd.action
          th.percentage th.action ▸ hkey
        apply alertFold_active_mono
        unfold alertStep
        rw [if_pos ⟨h1 ▸ hpct, hkey ▸ hnot⟩]
        simp [h2, hact]
      · apply ih
        refine ⟨th, hmem, hact, hpct, ?_⟩
        unfold alertStep
        split
        · intro hin
          rcases List.mem_cons.mp hin with heq | hin2
          · exact hkey heq.symm
          · exact hnot hin2
        · exact hnot

/-- `checkAlerts` never clears the emergency latch. -/
theorem checkAlerts_active_mono (bounds : PeriodBounds) (t : BudgetTracker)
    (now : ℤ) (h : t.emergencyModeActive = true) :
    (checkAlerts bounds t now).emergencyModeActive = true := by
  unfold checkAlerts
  exact alertFold_active_mono _ _ _ _ h

/-- `checkAlerts` latches the emergency flag when an unfired
`emergency_mode` threshold is crossed and emergency mode is enabled. -/
theorem checkAlerts_triggers (bounds : PeriodBounds) (t : BudgetTracker)
    (now : ℤ) (henabled : t.config.emergencyMode.enabled = true)
    (h : ∃ th ∈ t.config.alertThresholds,
      th.action = AlertAction.emergency_mode ∧
      th.percentage ≤
        (getStatus bounds t BudgetPeriod.daily now).percentUsed ∧
      (th.percentage, th.action) ∉ t.alertsFired) :
    (checkAlerts bounds t now).emergencyModeActive = true := by
  unfold checkAlerts
  rw [henabled]
  exact alertFold_triggers _ _ _ h

-- ─── C7: the emergency latch ────────────────────────────────────────────────

/-- Counterexample to C7 as stated: `setEmergencyMode(false)` — an operation
other than `resetAlerts()` — clears a latched emergency flag. -/
theorem setEmergencyMode_false_counterexample :
    (applyOp (fun _ _ => (0, 1))
        ⟨[], ⟨5, 30, 100, [], ⟨true, true, [], true⟩⟩, true, []⟩
        (TrackerOp.setEmergencyMode false)).emergencyModeActive = false ∧
    TrackerOp.setEmergencyMode false ≠ TrackerOp.resetAlerts :=
  ⟨rfl, by decide⟩

/-- C7 (amended): once latched, the emergency flag survives every tracker
operation except `resetAlerts()` and an explicit `setEmergencyMode(false)`;
and it latches (in particular transitions from false to true) whenever a
cost record crosses an unfired alert threshold whose action is
`emergency_mode` while emergency mode is enabled in the configuration. -/
theorem emergency_latch (bounds : PeriodBounds) :
    (∀ (t : BudgetTracker) (op : TrackerOp),
      t.emergencyModeActive = true → op ≠ TrackerOp.resetAlerts →
      op ≠ TrackerOp.setEmergencyMode false →
      (applyOp bounds t op).emergencyModeActive = true) ∧
    (∀ (t : BudgetTracker) (c : ActualCost) (now : ℤ),
      t.config.emergencyMode.enabled = true →
      (∃ th ∈ t.config.alertThresholds,
        th.action = AlertAction.emergency_mode ∧
        th.percentage ≤ (getStatus bounds
          { t with costs := t.costs ++ [c] } BudgetPeriod.daily
          now).percentUsed ∧
        (th.percentage, th.action) ∉ t.alertsFired) →
      (recordCost bounds t c now).emergencyModeActive = true) := by
  constructor
  · intro t op hlatched hop1 hop2
    cases op with
    | recordCost c now => exact checkAlerts_active_mono _ _ _ hlatched
    | setEmergencyMode active =>
      cases active with
      | false => exact absurd rfl hop2
      | true => rfl
    | updateConfig p now => exact checkAlerts_active_mono _ _ _ hlatched
    | prune now => exact hlatched
    | resetAlerts => exact absurd rfl hop1
  · intro t c now henabled hex
    exact checkAlerts_triggers bounds
      { t with costs := t.costs ++ [c] } now henabled hex

/-- Witness for C7 on concrete trackers: pruning keeps the latch, and a
recorded cost pushing daily use to 200 % latches a tracker whose 95 %
threshold has action `emergency_mode`. -/
theorem emergency_latch_witness :
    (applyOp (fun _ _ => (0, 10))
        ⟨[], ⟨5, 30, 100, [], ⟨true, true, [], true⟩⟩, true, []⟩
        (TrackerOp.prune 0)).emergencyModeActive = true ∧
    (recordCost (fun _ _ => (0, 10))
        ⟨[], ⟨5, 30, 100, [⟨95, AlertAction.emergency_mode⟩],
          ⟨true, true, [], true⟩⟩, false, []⟩
        ⟨ProviderName.openai, "m", 1, 1, 10, 5⟩
        3).emergencyModeActive = true :=
  ⟨(emergency_latch (fun _ _ => (0, 10))).1
      ⟨[], ⟨5, 30, 100, [], ⟨true, true, [], true⟩⟩, true, []⟩
      (TrackerOp.prune 0) rfl (by decide) (by decide),
    (emergency_latch (fun _ _ => (0, 10))).2
      ⟨[], ⟨5, 30, 100, [⟨95, AlertAction.emergency_mode⟩],
        ⟨true, true, [], true⟩⟩, false, []⟩
      ⟨ProviderName.openai, "m", 1, 1, 10, 5⟩ 3 rfl
      ⟨⟨95, AlertAction.emergency_mode⟩, by decide, rfl,
        by
          simp only [getStatus, getLimit, mathRound_eq_floor]
          norm_num [List.filter, List.foldl],
        by decide⟩⟩

-- ─── C3: budget admission in processQuery ───────────────────────────────────

/-- C3: on a cache miss, daily percent-used at or above 100 records exactly
one `budget_reject` artifact and fails with `BudgetExceeded` — no provider
call and no `route_decision` artifact; below 100 the request proceeds to
routing (exactly one `route_decision` artifact, no `budget_reject`). -/
theorem processQuery_budget_admission (bounds : PeriodBounds)
    (budget : BudgetTracker) (now : ℤ) (execution : ExecutionPhase) :
    (100 ≤ (getStatus bounds budget BudgetPeriod.daily now).percentUsed →
      (processQuery bounds budget now none execution).artifacts.count
          ArtifactType.budget_reject = 1 ∧
        (processQuery bounds budget now none execution).result =
          Except.error AgentError.budgetExceeded ∧
        (processQuery bounds budget now none execution).providerCalls = 0 ∧
        ArtifactType.route_decision ∉
          (processQuery bounds budget now none execution).artifacts) ∧
    ((getStatus bounds budget BudgetPeriod.daily now).percentUsed < 100 →
      (processQuery bounds budget now none execution).artifacts.count
          ArtifactType.route_decision = 1 ∧
        ArtifactType.budget_reject ∉
          (processQuery bounds budget now none execution).artifacts) := by
  constructor
  · intro h
    unfold processQuery
    rw [if_pos h]
    refine ⟨rfl, rfl, rfl, by decide⟩
  · intro h
    unfold processQuery
    rw [if_neg (not_le.mpr h)]
    cases execution.outcome with
    | error e =>
      constructor
      · simp [List.count_cons, List.count_replicate]
      · simp [List.mem_cons, List.mem_replicate]
    | ok u =>
      constructor
      · simp [List.count_cons, List.count_replicate]
      · simp [List.mem_cons, List.mem_replicate]

/-- Witness for C3: a tracker at 200 % of its daily budget rejects, and the
same pipeline with a fresh tracker proceeds to routing. -/
theorem processQuery_budget_admission_witness :
    ((processQuery (fun _ _ => (0, 10))
        ⟨[⟨ProviderName.openai, "m", 1, 1, 10, 5⟩],
          ⟨5, 30, 100, [], ⟨true, true, [], true⟩⟩, false, []⟩
        3 none ⟨0, 0, Except.ok ()⟩).artifacts.count
        ArtifactType.budget_reject = 1 ∧
      (processQuery (fun _ _ => (0, 10))
          ⟨[⟨ProviderName.openai, "m", 1, 1, 10, 5⟩],
            ⟨5, 30, 100, [], ⟨true, true, [], true⟩⟩, false, []⟩
          3 none ⟨0, 0, Except.ok ()⟩).result =
        Except.error AgentError.budgetExceeded ∧
      (processQuery (fun _ _ => (0, 10))
          ⟨[⟨ProviderName.openai, "m", 1, 1, 10, 5⟩],
            ⟨5, 30, 100, [], ⟨true, true, [], true⟩⟩, false, []⟩
          3 none ⟨0, 0, Except.ok ()⟩).providerCalls = 0 ∧
      ArtifactType.route_decision ∉
        (processQuery (fun _ _ => (0, 10))
            ⟨[⟨ProviderName.openai, "m", 1, 1, 10, 5⟩],
              ⟨5, 30, 100, [], ⟨true, true, [], true⟩⟩, false, []⟩
            3 none ⟨0, 0, Except.ok ()⟩).artifacts) ∧
    ((processQuery (fun _ _ => (0, 10))
        ⟨[], ⟨5, 30, 100, [], ⟨true, true, [], true⟩⟩, false, []⟩
        3 none ⟨0, 0, Except.ok ()⟩).artifacts.count
        ArtifactType.route_decision = 1 ∧
      ArtifactType.budget_reject ∉
        (processQuery (fun _ _ => (0, 10))
            ⟨[], ⟨5, 30, 100, [], ⟨true, true, [], true⟩⟩, false, []⟩
            3 none ⟨0, 0, Except.ok ()⟩).artifacts) :=
  ⟨(processQuery_budget_admission (fun _ _ => (0, 10))
      ⟨[⟨ProviderName.openai, "m", 1, 1, 10, 5⟩],
        ⟨5, 30, 100, [], ⟨true, true, [], true⟩⟩, false, []⟩
      3 ⟨0, 0, Except.ok ()⟩).1
      (by
        simp only [getStatus, getLimit, mathRound_eq_floor]
        norm_num [List.filter, List.foldl]),
    (processQuery_budget_admission (fun _ _ => (0, 10))
      ⟨[], ⟨5, 30, 100, [], ⟨true, true, [], true⟩⟩, false, []⟩
      3 ⟨0, 0, Except.ok ()⟩).2
      (by
        simp only [getStatus, getLimit, mathRound_eq_floor]
        norm_num [List.filter, List.foldl])⟩

-- ─── C10: zero configured limit ─────────────────────────────────────────────

/-- Counterexample to C10 as stated: with a zero daily limit, a configured
threshold at percentage 0 still fires (0 ≥ 0), so "the alert check never
fires any threshold" is false. -/
theorem zero_limit_alert_counterexample :
    (recordCost (fun _ _ => (0, 10))
        ⟨[], ⟨0, 0, 0, [⟨0, AlertAction.log⟩], ⟨false, false, [], false⟩⟩,
          false, []⟩
        ⟨ProviderName.openai, "m", 1, 1, 100, 5⟩ 3).alertsFired =
      [(0, AlertAction.log)] ∧
    (⟨0, 0, 0, [⟨0, AlertAction.log⟩],
      ⟨false, false, [], false⟩⟩ : BudgetConfig).dailyLimit = 0 := by
  refine ⟨?_, rfl⟩
  simp only [recordCost, checkAlerts, getStatus, getLimit,
    mathRound_eq_floor]
  norm_num [List.filter, List.foldl, alertStep]

/-- C10 (amended): for every period whose configured limit is 0,
`getStatus` yields percent-used 0 instead of dividing by zero; with a zero
daily limit, consequently, no alert threshold with positive percentage ever
fires and budget admission never records a `budget_reject`, regardless of
recorded spend. -/
theorem zero_limit_safety (bounds : PeriodBounds) (t : BudgetTracker)
    (now : ℤ) :
    (∀ period, getLimit t.config period = 0 →
      (getStatus bounds t period now).percentUsed = 0) ∧
    (t.config.dailyLimit = 0 →
      (∀ key : ℚ × AlertAction, 0 < key.1 → key ∉ t.alertsFired →
        key ∉ (checkAlerts bounds t now).alertsFired) ∧
      ∀ execution : ExecutionPhase, ArtifactType.budget_reject ∉
        (processQuery bounds t now none execution).artifacts) := by
  have hpct : ∀ period, getLimit t.config period = 0 →
      (getStatus bounds t period now).percentUsed = 0 := by
    intro period hzero
    unfold getStatus
    dsimp only
    rw [hzero, if_neg (lt_irrefl 0), mathRound_eq_floor]
    norm_num
  refine ⟨hpct, fun hdaily => ⟨?_, ?_⟩⟩
  · intro key hkey hnot hin
    have hpct0 : (getStatus bounds t BudgetPeriod.daily now).percentUsed = 0
      := hpct BudgetPeriod.daily hdaily
    unfold checkAlerts at hin
    dsimp only at hin
    rcases alertFold_fired_mem _ _ _ _ key hin with h | h
    · exact hnot h
    · rw [hpct0] at h
      exact absurd (lt_of_lt_of_le hkey h) (lt_irrefl 0)
  · intro execution
    unfold processQuery
    dsimp only
    rw [hpct BudgetPeriod.daily hdaily,
      if_neg (by norm_num : ¬ (100 : ℚ) ≤ 0)]
    cases execution.outcome <;> simp [List.mem_cons, List.mem_replicate]

/-- Witness for C10: a tracker whose limits are all 0 with 100 spent
reports 0 % percent-used for the daily, weekly and monthly periods, leaves
its 50 % threshold unfired and admits the request. -/
theorem zero_limit_safety_witness :
    (getStatus (fun _ _ => (0, 10))
        ⟨[⟨ProviderName.openai, "m", 1, 1, 100, 5⟩],
          ⟨0, 0, 0, [⟨50, AlertAction.log⟩], ⟨false, false, [], false⟩⟩,
          false, []⟩ BudgetPeriod.daily 3).percentUsed = 0 ∧
    (getStatus (fun _ _ => (0, 10))
        ⟨[⟨ProviderName.openai, "m", 1, 1, 100, 5⟩],
          ⟨0, 0, 0, [⟨50, AlertAction.log⟩], ⟨false, false, [], false⟩⟩,
          false, []⟩ BudgetPeriod.weekly 3).percentUsed = 0 ∧
    (getStatus (fun _ _ => (0, 10))
        ⟨[⟨ProviderName.openai, "m", 1, 1, 100, 5⟩],
          ⟨0, 0, 0, [⟨50, AlertAction.log⟩], ⟨false, false, [], false⟩⟩,
          false, []⟩ BudgetPeriod.monthly 3).percentUsed = 0 ∧
    ((50 : ℚ), AlertAction.log) ∉
      (checkAlerts (fun _ _ => (0, 10))
        ⟨[⟨ProviderName.openai, "m", 1, 1, 100, 5⟩],
          ⟨0, 0, 0, [⟨50, AlertAction.log⟩], ⟨false, false, [], false⟩⟩,
          false, []⟩ 3).alertsFired ∧
    ArtifactType.budget_reject ∉
      (processQuery (fun _ _ => (0, 10))
          ⟨[⟨ProviderName.openai, "m", 1, 1, 100, 5⟩],
            ⟨0, 0, 0, [⟨50, AlertAction.log⟩], ⟨false, false, [], false⟩⟩,
            false, []⟩ 3 none ⟨0, 0, Except.ok ()⟩).artifacts :=
  ⟨(zero_limit_safety (fun _ _ => (0, 10))
      ⟨[⟨ProviderName.openai, "m", 1, 1, 100, 5⟩],
        ⟨0, 0, 0, [⟨50, AlertAction.log⟩], ⟨false, false, [], false⟩⟩,
        false, []⟩ 3).1 BudgetPeriod.daily rfl,
    (zero_limit_safety (fun _ _ => (0, 10))
      ⟨[⟨ProviderName.openai, "m", 1, 1, 100, 5⟩],
        ⟨0, 0, 0, [⟨50, AlertAction.log⟩], ⟨false, false, [], false⟩⟩,
        false, []⟩ 3).1 BudgetPeriod.weekly rfl,
    (zero_limit_safety (fun _ _ => (0, 10))
      ⟨[⟨ProviderName.openai, "m", 1, 1, 100, 5⟩],
        ⟨0, 0, 0, [⟨50, AlertAction.log⟩], ⟨false, false, [], false⟩⟩,
        false, []⟩ 3).1 BudgetPeriod.monthly rfl,
    ((zero_limit_safety (fun _ _ => (0, 10))
      ⟨[⟨ProviderName.openai, "m", 1, 1, 100, 5⟩],
        ⟨0, 0, 0, [⟨50, AlertAction.log⟩], ⟨false, false, [], false⟩⟩,
        false, []⟩ 3).2 rfl).1 (50, AlertAction.log) (by norm_num)
      (by decide),
    ((zero_limit_safety (fun _ _ => (0, 10))
      ⟨[⟨ProviderName.openai, "m", 1, 1, 100, 5⟩],
        ⟨0, 0, 0, [⟨50, AlertAction.log⟩], ⟨false, false, [], false⟩⟩,
        false, []⟩ 3).2 rfl).2 ⟨0, 0, Except.ok ()⟩⟩

-- ─── C1/C2: cascade executor ────────────────────────────────────────────────

/-- Unfolding of the cascade loop on an exhausted chain. -/
theorem executeCascadeGo_nil {T : Type} (run : Nat → Option T)
    (evalQ : T → ℚ) (total i : Nat) (b : CascadeBest T) :
    executeCascadeGo run evalQ total i [] b =
      match b.bestResponse with
      | none => Except.error CascadeError.allCascadeStepsFailed
      | some r =>
        Except.ok ⟨r, b.bestProvider, b.bestModel, b.bestStep, total, 0⟩ :=
  rfl

/-- Unfolding of the cascade loop on a remaining step. -/
theorem executeCascadeGo_cons {T : Type} (run : Nat → Option T)
    (evalQ : T → ℚ) (total i : Nat) (step : CascadeStep)
    (rest : List CascadeStep) (b : CascadeBest T) :
    executeCascadeGo run evalQ total i (step :: rest) b =
      match run i with
      | none => executeCascadeGo run evalQ total (i + 1) rest b
      | some response =>
        if step.qualityThreshold ≤ evalQ response then
          Except.ok ⟨response, step.provider, step.model, i, total, 0⟩
        else
          executeCascadeGo run evalQ total (i + 1) rest
            (if b.bestQuality < evalQ response then
              ⟨some response, evalQ response, step.provider, step.model, i⟩
            else b) :=
  rfl

/-- The cascade loop, started at index `i` with a best-so-far record
satisfying the invariant and no qualifying step before `i`, produces an
outcome satisfying the full characterisation `CascadePost`. -/
theorem executeCascadeGo_post {T : Type} (chain : List CascadeStep)
    (run : Nat → Option T) (evalQ : T → ℚ) (rest : List CascadeStep) :
    ∀ (i : Nat) (b : CascadeBest T), chain.drop i = rest →
      (∀ j, j < i → ¬ QualifiesAt chain run evalQ j) →
      CascadeInv chain run evalQ i b →
      CascadePost chain run evalQ chain.length
        (executeCascadeGo run evalQ chain.length i rest b) := by
  induction rest with
  | nil =>
    intro i b hdrop hnq hinv
    have hlen : chain.length ≤ i := List.drop_eq_nil_iff.mp hdrop
    rcases hinv with ⟨hnone, hq0, hscores⟩ |
      ⟨r, s, hbr, hrunb, hev, hpos, hlt, hgetb, hprov, hmod, hmax, hstrict⟩
    · rw [executeCascadeGo_nil, hnone]
      intro j hj
      exact ⟨fun r hr => hscores j (lt_of_lt_of_le hj hlen) r hr,
        hnq j (lt_of_lt_of_le hj hlen)⟩
    · rw [executeCascadeGo_nil, hbr]
      show CascadePost chain run evalQ chain.length (Except.ok
        ⟨r, b.bestProvider, b.bestModel, b.bestStep, chain.length, 0⟩)
      refine ⟨rfl, (List.getElem?_eq_some.mp hgetb).1,
        ⟨s, hgetb, hprov, hmod⟩, hrunb,
        fun j hj => hnq j (lt_trans hj hlt), Or.inr ⟨?_, ?_, ?_, ?_⟩⟩
      · exact fun j hj => hnq j (lt_of_lt_of_le hj hlen)
      · rw [hev]
        exact hpos
      · intro j hj q hq
        have h := hmax j (lt_of_lt_of_le hj hlen) q hq
        rwa [← hev] at h
      · intro j hj q hq
        have h := hstrict j hj q hq
        rwa [← hev] at h
  | cons step rest2 ih =>
    intro i b hdrop hnq hinv
    have hget : chain[i]? = some step := by
      have h2 : (chain.drop i)[0]? = some step := by rw [hdrop]; simp
      rw [List.getElem?_drop] at h2
      simpa using h2
    have hilen : i < chain.length := (List.getElem?_eq_some.mp hget).1
    have hdrop2 : chain.drop (i + 1) = rest2 := by
      have h3 : chain.drop (i + 1) = (chain.drop i).drop 1 := by
        rw [List.drop_drop]
      rw [h3, hdrop]
      rfl
    rw [executeCascadeGo_cons]
    cases hrun : run i with
    | none =>
      show CascadePost chain run evalQ chain.length
        (executeCascadeGo run evalQ chain.length (i + 1) rest2 b)
      apply ih (i + 1) b hdrop2
      · intro j hj
        rcases Nat.lt_succ_iff_lt_or_eq.mp hj with hj2 | rfl
        · exact hnq j hj2
        · rintro ⟨r, s, hr, -, -⟩
          rw [hrun] at hr
          cases hr
      · rcases hinv with ⟨h1, h2, h3⟩ |
          ⟨r, s, hbr, hrunb, hev, hpos, hlt, hgetb, hprov, hmod, hmax,
            hstrict⟩
        · refine Or.inl ⟨h1, h2, ?_⟩
          intro j hj r hr
          rcases Nat.lt_succ_iff_lt_or_eq.mp hj with hj2 | rfl
          · exact h3 j hj2 r hr
          · rw [hrun] at hr
            cases hr
        · refine Or.inr ⟨r, s, hbr, hrunb, hev, hpos,
            Nat.lt_succ_of_lt hlt, hgetb, hprov, hmod, ?_, hstrict⟩
          intro j hj q hq
          rcases Nat.lt_succ_iff_lt_or_eq.mp hj with hj2 | rfl
          · exact hmax j hj2 q hq
          · unfold runScore at hq
            rw [hrun] at hq
            cases hq
    | some response =>
      show CascadePost chain run evalQ chain.length
        (if step.qualityThreshold ≤ evalQ response then
          Except.ok ⟨response, step.provider, step.model, i, chain.length, 0⟩
        else
          executeCascadeGo run evalQ chain.length (i + 1) rest2
            (if b.bestQuality < evalQ response then
              ⟨some response, evalQ response, step.provider, step.model, i⟩
            else b))
      by_cases hth : step.qualityThreshold ≤ evalQ response
      · rw [if_pos hth]
        exact ⟨rfl, hilen, ⟨step, hget, rfl, rfl⟩, hrun,
          fun j hj => hnq j hj, Or.inl ⟨response, step, hrun, hget, hth⟩⟩
      · rw [if_neg hth]
        have hq_i : ¬ QualifiesAt chain run evalQ i := by
          rintro ⟨r, s, hr, hs, hle⟩
          rw [hrun] at hr
          cases hr
          rw [hget] at hs
          cases hs
          exact hth hle
        have hnq2 : ∀ j, j < i + 1 → ¬ QualifiesAt chain run evalQ j := by
          intro j hj
          rcases Nat.lt_succ_iff_lt_or_eq.mp hj with hj2 | rfl
          · exact hnq j hj2
          · exact hq_i
        by_cases hbq : b.bestQuality < evalQ response
        · rw [if_pos hbq]
          apply ih (i + 1) _ hdrop2 hnq2
          have hpos2 : 0 < evalQ response := by
            rcases hinv with ⟨-, h2, -⟩ | ⟨r, s, -, -, -, hpos, -, -, -, -,
              -, -⟩
            · rw [h2] at hbq
              exact hbq
            · exact lt_trans hpos hbq
          refine Or.inr ⟨response, step, rfl, hrun, rfl, hpos2,
            Nat.lt_succ_self i, hget, rfl, rfl, ?_, ?_⟩
          · intro j hj q hq
            rcases Nat.lt_succ_iff_lt_or_eq.mp hj with hj2 | rfl
            · rcases hinv with ⟨-, -, h3⟩ | ⟨r, s2, -, -, -, -, -, -, -, -,
                hmax, -⟩
              · unfold runScore at hq
                obtain ⟨r0, hr0, hq0⟩ := Option.map_eq_some'.mp hq
                rw [← hq0]
                exact le_of_lt (lt_of_le_of_lt (h3 j hj2 r0 hr0) hpos2)
              · exact le_of_lt (lt_of_le_of_lt (hmax j hj2 q hq) hbq)
            · unfold runScore at hq
              rw [hrun] at hq
              cases hq
              exact le_refl _
          · intro j hj q hq
            rcases hinv with ⟨-, -, h3⟩ | ⟨r, s2, -, -, -, -, -, -, -, -,
              hmax, -⟩
            · unfold runScore at hq
              obtain ⟨r0, hr0, hq0⟩ := Option.map_eq_some'.mp hq
              rw [← hq0]
              exact lt_of_le_of_lt (h3 j hj r0 hr0) hpos2
            · exact lt_of_le_of_lt (hmax j hj q hq) hbq
        · rw [if_neg hbq]
          apply ih (i + 1) b hdrop2 hnq2
          push_neg at hbq
          rcases hinv with ⟨h1, h2, h3⟩ |
            ⟨r, s, hbr, hrunb, hev, hpos, hlt, hgetb, hprov, hmod, hmax,
              hstrict⟩
          · refine Or.inl ⟨h1, h2, ?_⟩
            intro j hj r hr
            rcases Nat.lt_succ_iff_lt_or_eq.mp hj with hj2 | rfl
            · exact h3 j hj2 r hr
            · rw [hrun] at hr
              cases hr
              rw [← h2]
              exact hbq
          · refine Or.inr ⟨r, s, hbr, hrunb, hev, hpos,
              Nat.lt_succ_of_lt hlt, hgetb, hprov, hmod, ?_, hstrict⟩
            intro j hj q hq
            rcases Nat.lt_succ_iff_lt_or_eq.mp hj with hj2 | rfl
            · exact hmax j hj2 q hq
            · unfold runScore at hq
              rw [hrun] at hq
              cases hq
              exact hbq

/-- Every cascade execution over a non-empty chain satisfies the full
outcome characterisation. -/
theorem executeCascade_post {T : Type} (chain : List CascadeStep)
    (run : Nat → Option T) (evalQ : T → ℚ) (hne : chain ≠ []) :
    CascadePost chain run evalQ chain.length
      (executeCascade chain run evalQ) := by
  cases chain with
  | nil => exact absurd rfl hne
  | cons c0 cs =>
    show CascadePost (c0 :: cs) run evalQ (c0 :: cs).length
      (executeCascadeGo run evalQ (c0 :: cs).length 0 (c0 :: cs)
        ⟨none, 0, c0.provider, c0.model, 0⟩)
    apply executeCascadeGo_post (c0 :: cs) run evalQ (c0 :: cs) 0 _ rfl
    · intro j hj
      exact absurd hj (Nat.not_lt_zero j)
    · exact Or.inl ⟨rfl, rfl, fun j hj r hr =>
        absurd hj (Nat.not_lt_zero j)⟩

/-- The step-selection contract of `executeCascade`: an `ok` result is
either the first qualifying step (no earlier step qualifies), or — when no
step qualifies — the earliest successful step of maximal, strictly positive
score; and the execution succeeds whenever some step qualifies or some
successful step scores positively. -/
def CascadeSelectionSpec {T : Type} (chain : List CascadeStep)
    (run : Nat → Option T) (evalQ : T → ℚ) : Prop :=
  (∀ out, executeCascade chain run evalQ = Except.ok out →
    run out.step = some out.response ∧
    (∃ s, chain[out.step]? = some s ∧ out.provider = s.provider ∧
      out.model = s.model) ∧
    (∀ j, j < out.step → ¬ QualifiesAt chain run evalQ j) ∧
    (QualifiesAt chain run evalQ out.step ∨
      ((∀ j, j < chain.length → ¬ QualifiesAt chain run evalQ j) ∧
        0 < evalQ out.response ∧
        (∀ j, j < chain.length → ∀ q, runScore run evalQ j = some q →
          q ≤ evalQ out.response) ∧
        (∀ j, j < out.step → ∀ q, runScore run evalQ j = some q →
          q < evalQ out.response)))) ∧
  ((∃ j, j < chain.length ∧ (QualifiesAt chain run evalQ j ∨
      ∃ q, runScore run evalQ j = some q ∧ 0 < q)) →
    ∃ out, executeCascade chain run evalQ = Except.ok out)

/-- Counterexample to C1 as stated: a one-step chain whose only step
succeeds with score 0 below its threshold.  The claim requires the argmax
over successful steps (step 0) to be returned, but the code throws
`AllCascadeStepsFailed`. -/
theorem executeCascade_zero_score_counterexample :
    executeCascade [⟨"openai", "gpt-4o-mini", 5, 1 / 20⟩]
        (fun _ => some ()) (fun _ => (0 : ℚ)) =
      Except.error CascadeError.allCascadeStepsFailed ∧
    (fun _ : Nat => some ()) 0 = some () :=
  ⟨rfl, rfl⟩

/-- C1 (amended): `executeCascade` returns the smallest index whose score
meets that step's threshold; if no step qualifies it returns the earliest
successful step of maximal score provided that maximum is positive; a
successful step whose score is non-positive does not count towards the
fallback (the best-so-far update requires a strictly positive score). -/
theorem executeCascade_selection {T : Type} (chain : List CascadeStep)
    (run : Nat → Option T) (evalQ : T → ℚ) (hne : chain ≠ []) :
    CascadeSelectionSpec chain run evalQ := by
  have hpost := executeCascade_post chain run evalQ hne
  constructor
  · intro out hout
    rw [hout] at hpost
    exact ⟨hpost.2.2.2.1, hpost.2.2.1, hpost.2.2.2.2.1, hpost.2.2.2.2.2⟩
  · rintro ⟨j, hj, hcase⟩
    cases hres : executeCascade chain run evalQ with
    | ok out => exact ⟨out, rfl⟩
    | error e =>
      rw [hres] at hpost
      cases e with
      | typeError => exact hpost.elim
      | allCascadeStepsFailed =>
        rcases hcase with hq | ⟨q, hq, hqpos⟩
        · exact absurd hq (hpost j hj).2
        · unfold runScore at hq
          obtain ⟨r0, hr0, hq0⟩ := Option.map_eq_some'.mp hq
          rw [← hq0] at hqpos
          exact absurd ((hpost j hj).1 r0 hr0) (not_le.mpr hqpos)

/-- Witness for C1 on a concrete one-step chain that qualifies. -/
theorem executeCascade_selection_witness :
    CascadeSelectionSpec [⟨"openai", "gpt-4o-mini", 8, 1 / 20⟩]
      (fun _ => some ()) (fun _ => (9 : ℚ)) :=
  executeCascade_selection [⟨"openai", "gpt-4o-mini", 8, 1 / 20⟩]
    (fun _ => some ()) (fun _ => (9 : ℚ)) (by simp)

/-- Counterexample to C2 as stated: a one-step chain whose `run` succeeds
(scoring 0 below the threshold), yet `executeCascade` fails with
`AllCascadeStepsFailed` instead of returning a result. -/
theorem executeCascade_success_fails_counterexample :
    executeCascade [⟨"openai", "gpt-4o", 8, 3 / 20⟩]
        (fun _ => some (42 : ℕ)) (fun _ => (0 : ℚ)) =
      Except.error CascadeError.allCascadeStepsFailed ∧
    (fun _ : Nat => some (42 : ℕ)) 0 ≠ none :=
  ⟨rfl, by simp⟩

/-- C2 (amended): on a non-empty chain, `executeCascade` fails with
`AllCascadeStepsFailed` exactly when every step either raised or returned a
response whose score is non-positive and below that step's threshold; in
particular a successful step with a positive score, or one meeting its
threshold, prevents the failure. -/
theorem executeCascade_failure_iff {T : Type} (chain : List CascadeStep)
    (run : Nat → Option T) (evalQ : T → ℚ) (hne : chain ≠ []) :
    executeCascade chain run evalQ =
        Except.error CascadeError.allCascadeStepsFailed ↔
      ∀ j s, chain[j]? = some s → run j = none ∨
        ∃ r, run j = some r ∧ evalQ r ≤ 0 ∧
          evalQ r < s.qualityThreshold := by
  have hpost := executeCascade_post chain run evalQ hne
  constructor
  · intro hres j s hs
    rw [hres] at hpost
    have hjlen : j < chain.length := (List.getElem?_eq_some.mp hs).1
    obtain ⟨hsc, hnq⟩ := hpost j hjlen
    cases hr : run j with
    | none => exact Or.inl rfl
    | some r =>
      refine Or.inr ⟨r, rfl, hsc r hr, ?_⟩
      by_contra hcon
      push_neg at hcon
      exact hnq ⟨r, s, hr, hs, hcon⟩
  · intro hall
    cases hres : executeCascade chain run evalQ with
    | error e =>
      cases e with
      | allCascadeStepsFailed => rfl
      | typeError =>
        rw [hres] at hpost
        exact hpost.elim
    | ok out =>
      rw [hres] at hpost
      obtain ⟨s, hs, -, -⟩ := hpost.2.2.1
      have hrun := hpost.2.2.2.1
      rcases hall out.step s hs with hnone | ⟨r, hr, hle0, hltth⟩
      · rw [hrun] at hnone
        cases hnone
      · rw [hrun] at hr
        cases hr
        rcases hpost.2.2.2.2.2 with ⟨r2, s2, hr2, hs2, hge⟩ |
          ⟨-, hpos, -, -⟩
        · rw [hrun] at hr2
          cases hr2
          rw [hs] at hs2
          cases hs2
          exact absurd hge (not_le.mpr hltth)
        · exact absurd hpos (not_lt.mpr hle0)

/-- Witness for C2 on a concrete one-step chain whose run raises. -/
theorem executeCascade_failure_iff_witness :
    executeCascade [⟨"openai", "gpt-4o-mini", 8, 1 / 20⟩]
        (fun _ => (none : Option Unit)) (fun _ => (0 : ℚ)) =
        Except.error CascadeError.allCascadeStepsFailed ↔
      ∀ (j : Nat) (s : CascadeStep),
        ([⟨"openai", "gpt-4o-mini", 8, 1 / 20⟩] :
          List CascadeStep)[j]? = some s →
        (fun _ => (none : Option Unit)) j = none ∨
        ∃ r, (fun _ => (none : Option Unit)) j = some r ∧
          (fun _ => (0 : ℚ)) r ≤ 0 ∧
          (fun _ => (0 : ℚ)) r < s.qualityThreshold :=
  executeCascade_failure_iff [⟨"openai", "gpt-4o-mini", 8, 1 / 20⟩]
    (fun _ => (none : Option Unit)) (fun _ => (0 : ℚ)) (by simp)

end DeepEyeClaw
